import Mathlib

/-!
Verification of the claude-sync repository: a shallow embedding of the
git-operations facade (internal/git), the error classifier, the sync
orchestrator and the first-time-setup state machine (internal/sync/service),
and the status command helpers (cmd/status.go), with theorems settling the
frozen claims about them.
-/

namespace ClaudeSync

/-- Go error values are modelled as plain message strings. -/
abbrev GoErr := String

/-! ## String helpers mirroring the Go standard library -/

/-- Infix test on character lists: sub occurs contiguously in l. -/
def charsContain (sub l : List Char) : Bool :=
  (List.range (l.length + 1)).any (fun i => sub.isPrefixOf (l.drop i))

/-- Embeds Go strings.Contains: substring test (on the character sequence). -/
def goContains (s sub : String) : Bool :=
  charsContain sub.data s.data

/-- Embeds Go strings.ToLower (character-wise, which agrees on the ASCII
diagnostics being matched). -/
def goToLower (s : String) : String :=
  ⟨s.data.map Char.toLower⟩

/-- Embeds Go strings.TrimSpace: drop whitespace from both ends. -/
def goTrim (s : String) : String :=
  ⟨((s.data.dropWhile Char.isWhitespace).reverse.dropWhile Char.isWhitespace).reverse⟩

/-- Embeds Go strings.Fields: split around runs of whitespace, dropping
empty pieces. -/
def goFields (s : String) : List String :=
  ((s.data.splitOnP Char.isWhitespace).filter (fun t => t ≠ [])).map
    (fun t => ⟨t⟩)

/-- Embeds the effect of fmt.Sscanf with a single %d verb on a whitespace-free
field: an optional sign followed by at least one digit; trailing characters are
ignored; none when no digit can be read. -/
def sscanfInt (s : String) : Option Int :=
  let signAndRest : Bool × List Char :=
    match s.data with
    | '-' :: r => (true, r)
    | '+' :: r => (false, r)
    | r => (false, r)
  let ds := signAndRest.2.takeWhile Char.isDigit
  if ds.isEmpty then none
  else
    let n : Nat := ds.foldl (fun acc c => acc * 10 + (c.toNat - 48)) 0
    some (if signAndRest.1 then -(n : Int) else (n : Int))

/-! ## Error classifier (internal/git: enhancePushError, enhancePullError,
enhanceCloneError) -/

/-- The categories a raw git failure output can be classified into. -/
inductive ErrCategory
  | sshAuth
  | httpsAuth
  | network
  | notFound
  | emptyRepo
  | noUpstream
  | generic
  deriving DecidableEq, Repr

/-- Embeds the branch structure of enhancePushError: case-insensitive
substring matching on the captured output, first match wins. -/
def classifyPush (output : String) : ErrCategory :=
  let lower := goToLower output
  if goContains lower "permission denied" || goContains lower "publickey" then
    .sshAuth
  else if goContains lower "authentication failed" || goContains lower "403" then
    .httpsAuth
  else if goContains lower "could not resolve host" ||
      goContains lower "connection timed out" || goContains lower "network" then
    .network
  else if goContains lower "repository not found" ||
      goContains lower "does not appear to be a git repository" then
    .notFound
  else
    .generic

/-- Embeds enhancePullError: the no-upstream check first, then it delegates
to enhancePushError. -/
def classifyPull (output : String) : ErrCategory :=
  let lower := goToLower output
  if goContains lower "no tracking information" ||
      goContains lower "there is no tracking information" then
    .noUpstream
  else
    classifyPush output

/-- Embeds the branch structure of enhanceCloneError. -/
def classifyClone (output : String) : ErrCategory :=
  let lower := goToLower output
  if goContains lower "permission denied" || goContains lower "publickey" then
    .sshAuth
  else if goContains lower "repository not found" ||
      goContains lower "does not appear to be a git repository" ||
      goContains lower "not found" then
    .notFound
  else if goContains lower "empty repository" ||
      goContains lower "warning: you appear to have cloned an empty repository" then
    .emptyRepo
  else
    .generic

/-- The known phrases consulted by enhancePushError (all lowercase, as the
output is lowercased before matching). -/
def pushKnownPhrases : List String :=
  ["permission denied", "publickey", "authentication failed", "403",
   "could not resolve host", "connection timed out", "network",
   "repository not found", "does not appear to be a git repository"]

/-- The known phrases consulted by enhanceCloneError. -/
def cloneKnownPhrases : List String :=
  ["permission denied", "publickey", "repository not found",
   "does not appear to be a git repository", "not found",
   "empty repository", "warning: you appear to have cloned an empty repository"]

/-- Remediation block attached by enhancePushError, one block per matched
branch; the generic fall-through attaches none (empty). The blocks abbreviate
the exact multi-line fix lists in the source. -/
def pushRemediation (output : String) : String :=
  match classifyPush output with
  | .sshAuth => "Common fixes:\n  1. Add your SSH key: ssh-add ~/.ssh/id_rsa\n  2. Generate a key\n  3. Add key to GitHub\n  4. Test connection: ssh -T git@github.com"
  | .httpsAuth => "Common fixes:\n  1. Check repository access permissions\n  2. For HTTPS: Update credentials\n  3. For SSH: Ensure SSH keys are set up correctly\n  4. Verify repository URL: git remote -v"
  | .network => "Common fixes:\n  1. Check your internet connection\n  2. Verify repository URL is correct\n  3. Try again in a moment\n  4. Check if git hosting service is accessible"
  | .notFound => "Common fixes:\n  1. Verify the repository exists on the remote\n  2. Check repository URL: git remote -v\n  3. Ensure you have access to the repository\n  4. Create the repository if it does not exist"
  | _ => ""

/-- Remediation block attached by enhancePullError. -/
def pullRemediation (output : String) : String :=
  match classifyPull output with
  | .noUpstream => "This usually happens after initial setup.\nThe sync will set upstream automatically."
  | _ => pushRemediation output

/-- Remediation block attached by enhanceCloneError. -/
def cloneRemediation (output : String) : String :=
  match classifyClone output with
  | .sshAuth => "Common fixes:\n  1. Add your SSH key: ssh-add ~/.ssh/id_rsa\n  2. Generate a key\n  3. Add key to GitHub\n  4. Test connection: ssh -T git@github.com"
  | .notFound => "Please check:\n  1. The repository URL is correct\n  2. The repository exists\n  3. You have access to the repository"
  | .emptyRepo => "The repository exists but has no commits.\nIf this is a new repo, use \x27Start fresh\x27 instead."
  | _ => ""

/-- Outcome of one subprocess invocation: success with captured output, or
failure with captured output. -/
inductive CmdOutcome
  | ok (output : String)
  | fail (output : String)
  deriving DecidableEq, Repr

/-- A classified git failure: the category together with the raw output it
was derived from. -/
structure GitFailure where
  category : ErrCategory
  raw : String
  deriving DecidableEq, Repr

/-- Embeds git.Push: a plain push wraps its failure as a generic
"failed to push" error without consulting the classifier. -/
def gitPushRun : CmdOutcome → Except GitFailure Unit
  | .ok _ => .ok ()
  | .fail out => .error ⟨.generic, out⟩

/-- Embeds git.PushWithUpstream failure handling: the captured output is run
through enhancePushError. -/
def gitPushWithUpstreamRun : CmdOutcome → Except GitFailure Unit
  | .ok _ => .ok ()
  | .fail out => .error ⟨classifyPush out, out⟩

/-- Embeds git.PullWithRebase failure handling via enhancePullError. -/
def gitPullWithRebaseRun : CmdOutcome → Except GitFailure Unit
  | .ok _ => .ok ()
  | .fail out => .error ⟨classifyPull out, out⟩

/-- Embeds git.CloneRepo failure handling via enhanceCloneError. -/
def gitCloneRepoRun : CmdOutcome → Except GitFailure Unit
  | .ok _ => .ok ()
  | .fail out => .error ⟨classifyClone out, out⟩

/-! ## HasUncommittedChanges (internal/git) -/

/-- Outcome of running git diff-index through cmd.Run: a zero exit gives a
nil error, a nonzero exit gives an ExitError carrying the code (-1 when
killed by a signal), and anything else (start failure) a non-exit error. -/
inductive RunOutcome
  | exitZero
  | exitCode (code : Int)
  | startFailure
  deriving DecidableEq, Repr

/-- Embeds git.HasUncommittedChanges: exit code 1 from diff-index means
"changes exist" and is success; exit 0 means no changes; any other failure
is a hard error. -/
def hasUncommittedChanges : RunOutcome → Except GoErr Bool
  | .exitZero => .ok false
  | .exitCode c =>
      if c = 1 then .ok true
      else .error "git diff-index failed"
  | .startFailure => .error "git diff-index failed"

/-! ## GetBranchInfo (internal/git) -/

/-- Embeds git.GetBranchInfo. The two subprocess probes (branch
--show-current, and rev-list --left-right --count HEAD...upstream) are inputs:
each is either the captured stdout or a failure. -/
def getBranchInfo (branchProbe upstreamProbe : Except GoErr String) :
    Except GoErr (String × Int × Int) :=
  match branchProbe with
  | .error _ => .error "failed to get branch"
  | .ok bout =>
    let branch := goTrim bout
    match upstreamProbe with
    | .error _ => .ok (branch, 0, 0)
    | .ok uout =>
      match goFields uout with
      | [a, b] =>
        match sscanfInt a with
        | none => .error "failed to parse ahead count"
        | some ahead =>
          match sscanfInt b with
          | none => .error "failed to parse behind count"
          | some behind => .ok (branch, ahead, behind)
      | _ => .ok (branch, 0, 0)

/-! ## getEnabledPlugins (cmd/status.go) -/

/-- Outcome of reading and unmarshalling the settings file, the inputs of
getEnabledPlugins: the read can fail (missing file), the unmarshal can fail
(invalid JSON), or it yields the enabledPlugins map (a finite map, embedded
as an association list; absent key gives the empty map). -/
inductive SettingsRead
  | readError
  | unmarshalError
  | parsed (enabledPlugins : List (String × Bool))
  deriving DecidableEq, Repr

/-- Embeds getEnabledPlugins: any read or unmarshal failure yields the empty
list; otherwise the names mapped to true are collected. -/
def getEnabledPlugins : SettingsRead → List String
  | .readError => []
  | .unmarshalError => []
  | .parsed m => (m.filter (fun kv => kv.2)).map (fun kv => kv.1)

/-! ## The sync service (internal/sync/service): collaborators and traces

The Service runs against three injected collaborators (GitOperator, Prompter,
Logger). Each flow is embedded as a pure function from the collaborators
behaviour to its returned error value together with a trace of the calls it
made: git facade calls, prompts shown, and logger output. SpinWhile runs its
task synchronously and yields the task result, so it is transparent in the
embedding. -/

/-- One observable step of a service flow. -/
inductive Event
  | gitGetChangedFiles
  | gitCommitChanges (msg : String)
  | gitPullWithRebase
  | gitHasConflicts
  | gitAbortRebase
  | gitPush
  | gitGetRecentCommits (n : Nat)
  | gitInitRepo
  | gitSetupGitignore
  | gitInitialCommit (msg : String)
  | gitAddRemote (name url : String)
  | gitFetch
  | gitPullAllowUnrelatedHistories
  | gitPushWithUpstream
  | gitValidateRemote (url : String)
  | gitRemoteHasCommits (url : String)
  | gitCloneRepo (url : String)
  | gitCreateClaudeDir
  | gitRemoveClaudeDir
  | promptConfirm (q : String)
  | promptInput (q : String)
  | promptSelect (q : String)
  | logTitle (s : String)
  | logSuccess (icon msg : String)
  | logError (icon msg : String)
  | logWarning (icon msg : String)
  | logInfo (icon msg : String)
  | logMuted (msg : String)
  | logListItem (msg : String)
  | logBox (title content : String)
  | logNewline
  deriving DecidableEq, Repr

/-- Whether an event is a call into the git facade (an operation that may
touch the repository), as opposed to a prompt or log line. -/
def Event.isGitCall : Event → Bool
  | .gitGetChangedFiles => true
  | .gitCommitChanges _ => true
  | .gitPullWithRebase => true
  | .gitHasConflicts => true
  | .gitAbortRebase => true
  | .gitPush => true
  | .gitGetRecentCommits _ => true
  | .gitInitRepo => true
  | .gitSetupGitignore => true
  | .gitInitialCommit _ => true
  | .gitAddRemote _ _ => true
  | .gitFetch => true
  | .gitPullAllowUnrelatedHistories => true
  | .gitPushWithUpstream => true
  | .gitValidateRemote _ => true
  | .gitRemoteHasCommits _ => true
  | .gitCloneRepo _ => true
  | .gitCreateClaudeDir => true
  | .gitRemoveClaudeDir => true
  | _ => false

/-- The behaviour of the injected GitOperator: the outcome of each facade
call the service may make during one run. -/
structure GitOps where
  getChangedFiles : Except GoErr (List String)
  commitChanges : String → Except GoErr Unit
  generateAutoCommitMessage : String
  pullWithRebase : Except GoErr Unit
  hasConflicts : Except GoErr Bool
  abortRebase : Except GoErr Unit
  push : Except GoErr Unit
  getRecentCommits : Nat → Except GoErr (List String)
  initRepo : Except GoErr Unit
  setupGitignore : Except GoErr Unit
  initialCommit : String → Except GoErr Unit
  addRemote : String → String → Except GoErr Unit
  fetch : Except GoErr Unit
  pullAllowUnrelatedHistories : Except GoErr Unit
  pushWithUpstream : Except GoErr Unit
  validateRemote : String → Except GoErr Unit
  remoteHasCommits : String → Except GoErr Bool
  cloneRepo : String → Except GoErr Unit
  createClaudeDir : Except GoErr Unit
  removeClaudeDir : Except GoErr Unit

/-- The behaviour of the injected Prompter: the answer each prompt would
receive ("" means the user cancelled the prompt). -/
structure Prompter where
  confirm : String → Except GoErr Bool
  input : String → Except GoErr String
  select : String → Except GoErr String

/-- Embeds Service.commitLocalChanges. -/
def commitLocalChanges (g : GitOps) : Except GoErr Unit × List Event :=
  match g.getChangedFiles with
  | .error e =>
    (.error e, [.gitGetChangedFiles, .logError "✗" "Failed to check for changes"])
  | .ok files =>
    if files.length = 0 then
      (.ok (), [.gitGetChangedFiles, .logSuccess "✓" "No local changes", .logNewline])
    else
      let msg := g.generateAutoCommitMessage
      let t1 : List Event :=
        [.gitGetChangedFiles,
         .logSuccess "✓" ("Found " ++ toString files.length ++ " changed file(s)")]
        ++ files.map (fun f => .logListItem ("→ " ++ f))
        ++ [.logNewline, .logInfo "⏳" "Committing changes...", .gitCommitChanges msg]
      match g.commitChanges msg with
      | .error e => (.error e, t1 ++ [.logError "✗" "Failed to commit"])
      | .ok _ =>
        (.ok (), t1 ++ [.logSuccess "✓" "Changes committed",
          .logMuted ("  " ++ msg), .logNewline])

/-- Embeds Service.handlePullError: consulted when the pull failed, with the
pull error in hand. -/
def handlePullError (g : GitOps) (pullErr : GoErr) : Except GoErr Unit × List Event :=
  let probe : List Event := [.gitHasConflicts]
  match g.hasConflicts with
  | .error _ => (.error pullErr, probe ++ [.logError "✗" "Failed to pull"])
  | .ok false => (.error pullErr, probe ++ [.logError "✗" "Failed to pull"])
  | .ok true =>
    let t1 := probe ++
      [.logError "✗" "Merge conflicts detected!",
       .logWarning "⚠️" "Conflicts found - aborting sync to keep your config safe",
       .logMuted "  Please resolve conflicts manually and try again:",
       .logMuted "  1. cd ~/.claude",
       .logMuted "  2. Resolve conflicts in affected files",
       .logMuted "  3. git add <resolved-files>",
       .logMuted "  4. git rebase --continue",
       .logMuted "  5. Run claude-sync again",
       .logNewline, .gitAbortRebase]
    let t2 :=
      match g.abortRebase with
      | .error _ =>
        t1 ++ [.logWarning "⚠️" "Failed to abort rebase - manual intervention needed"]
      | .ok _ =>
        t1 ++ [.logInfo "ℹ️" "Rebase aborted - repository restored to previous state"]
    (.error "merge conflicts detected - sync aborted", t2 ++ [.logNewline])

/-- Embeds Service.pullWithRebaseAndHandleConflicts. -/
def pullWithRebaseAndHandleConflicts (g : GitOps) : Except GoErr Unit × List Event :=
  match g.pullWithRebase with
  | .ok _ =>
    (.ok (), [.gitPullWithRebase, .logSuccess "✓" "Pulled latest changes", .logNewline])
  | .error e =>
    let r := handlePullError g e
    (r.1, .gitPullWithRebase :: r.2)

/-- Embeds Service.pushToRemote. -/
def pushToRemote (g : GitOps) : Except GoErr Unit × List Event :=
  match g.push with
  | .error e => (.error e, [.gitPush, .logError "✗" "Failed to push"])
  | .ok _ => (.ok (), [.gitPush, .logSuccess "✓" "Pushed to remote", .logNewline])

/-- Embeds Service.showRecentActivity (errors and the empty list are
silently ignored). -/
def showRecentActivity (g : GitOps) : List Event :=
  match g.getRecentCommits 5 with
  | .error _ => [.gitGetRecentCommits 5]
  | .ok commits =>
    if commits.length = 0 then [.gitGetRecentCommits 5]
    else
      [.gitGetRecentCommits 5,
       .logBox "Recent Activity" (String.join (commits.map (fun c => "  " ++ c ++ "\n")))]

/-- Embeds the established-repository branch of Service.Run: the steady-state
commit, pull-with-rebase, push, recent-activity pipeline. -/
def syncEstablished (g : GitOps) : Except GoErr Unit × List Event :=
  let c := commitLocalChanges g
  match c.1 with
  | .error e => (.error e, c.2)
  | .ok _ =>
    let pl := pullWithRebaseAndHandleConflicts g
    match pl.1 with
    | .error e => (.error e, c.2 ++ pl.2)
    | .ok _ =>
      let ps := pushToRemote g
      match ps.1 with
      | .error e => (.error e, c.2 ++ pl.2 ++ ps.2)
      | .ok _ =>
        (.ok (), c.2 ++ pl.2 ++ ps.2 ++ showRecentActivity g
          ++ [.logSuccess "✨" "Sync complete!", .logNewline])

/-- Embeds Service.runCloneFlow: prompts for the URL only when none was
passed in; an empty answer cancels cleanly before any git call. -/
def runCloneFlow (g : GitOps) (p : Prompter) (remoteURL : String) :
    Except GoErr Unit × List Event :=
  let cloneStep : String → Except GoErr Unit × List Event := fun url =>
    match g.cloneRepo url with
    | .error e =>
      (.error e,
       [.gitCloneRepo url, .logError "✗" "Failed to clone repository", .logNewline,
        .logWarning "⚠️" "Please make sure:",
        .logMuted "  1. The repository URL is correct",
        .logMuted "  2. The repository exists and has commits",
        .logMuted "  3. You have SSH keys set up (for git@ URLs)", .logNewline])
    | .ok _ =>
      (.ok (),
       [.gitCloneRepo url, .logSuccess "✓" "Configuration cloned to ~/.claude",
        .logNewline, .logSuccess "🎉" "Setup complete!",
        .logInfo "💡" "Your Claude Code config is ready!",
        .logMuted "  Next steps:",
        .logMuted "  • Run \x27claude-sync\x27 anytime to sync changes",
        .logMuted "  • Your config is now synchronized across machines", .logNewline])
  if remoteURL = "" then
    let intro : List Event :=
      [.logInfo "📦" "Enter the URL of your existing Claude config repository",
       .logMuted "  Example: git@github.com:username/claude-config.git", .logNewline,
       .promptInput "🔗 Enter your git remote URL:"]
    match p.input "🔗 Enter your git remote URL:" with
    | .error e => (.error e, intro ++ [.logError "✗" "Failed to read input"])
    | .ok url =>
      if url = "" then
        (.ok (), intro ++
          [.logInfo "ℹ️" "Setup cancelled - you can run claude-sync again when ready",
           .logNewline])
      else
        let r := cloneStep url
        (r.1, intro ++ [.logNewline] ++ r.2)
  else
    cloneStep remoteURL

/-- Embeds Service.executeFreshInit: init, ignore file, initial commit, add
remote, push with upstream; a push failure keeps all local state and prints
manual-recovery steps. -/
def executeFreshInit (g : GitOps) (remoteURL : String) :
    Except GoErr Unit × List Event :=
  let t1 : List Event := [.logInfo "⏳" "Initializing git repository...", .gitInitRepo]
  match g.initRepo with
  | .error e => (.error e, t1 ++ [.logError "✗" "Failed to initialize git repo"])
  | .ok _ =>
    let t2 := t1 ++ [.logSuccess "✓" "Git repository initialized", .logNewline,
      .logInfo "⏳" "Creating .gitignore for sensitive files...", .gitSetupGitignore]
    match g.setupGitignore with
    | .error e => (.error e, t2 ++ [.logError "✗" "Failed to create .gitignore"])
    | .ok _ =>
      let t3 := t2 ++ [.logSuccess "✓" ".gitignore created",
        .logMuted "  Excluded: credentials.json, *.key, aws-*.sh, .env, etc.",
        .logNewline, .logInfo "⏳" "Creating initial commit...",
        .gitInitialCommit "Initial Claude Code configuration"]
      match g.initialCommit "Initial Claude Code configuration" with
      | .error e => (.error e, t3 ++ [.logError "✗" "Failed to create initial commit"])
      | .ok _ =>
        let t4 := t3 ++ [.logSuccess "✓" "Initial commit created", .logNewline,
          .logInfo "⏳" "Adding remote repository...", .gitAddRemote "origin" remoteURL]
        match g.addRemote "origin" remoteURL with
        | .error e => (.error e, t4 ++ [.logError "✗" "Failed to add remote"])
        | .ok _ =>
          let t5 := t4 ++ [.logSuccess "✓" "Remote added", .logNewline,
            .gitPushWithUpstream]
          match g.pushWithUpstream with
          | .error e =>
            (.error e, t5 ++ [.logError "✗" "Failed to push", .logNewline,
              .logWarning "⚠️" "Git setup complete, but push failed",
              .logMuted "  Your config is initialized locally. Try:",
              .logMuted "  1. cd ~/.claude",
              .logMuted "  2. git push -u origin main",
              .logMuted "  3. Run claude-sync again", .logNewline])
          | .ok _ =>
            (.ok (), t5 ++ [.logSuccess "✓" "Pushed to remote", .logNewline,
              .logSuccess "🎉" "Setup complete!",
              .logInfo "💡" "Your Claude Code config is now synced!",
              .logMuted "  Next steps:",
              .logMuted "  • Make changes to your Claude config",
              .logMuted "  • Run \x27claude-sync\x27 to automatically sync",
              .logMuted "  • On other machines: git clone your repo to ~/.claude",
              .logNewline])

/-- Embeds Service.executeMergeHistories: init, ignore file, commit the local
content, add remote, fetch, pull allowing unrelated histories, push with
upstream. -/
def executeMergeHistories (g : GitOps) (remoteURL : String) :
    Except GoErr Unit × List Event :=
  let t1 : List Event :=
    [.logInfo "⏳" "Initializing local git repository...", .gitInitRepo]
  match g.initRepo with
  | .error e => (.error e, t1 ++ [.logError "✗" "Failed to initialize git repo"])
  | .ok _ =>
    let t2 := t1 ++ [.logSuccess "✓" "Git repository initialized", .logNewline,
      .logInfo "⏳" "Creating .gitignore for sensitive files...", .gitSetupGitignore]
    match g.setupGitignore with
    | .error e => (.error e, t2 ++ [.logError "✗" "Failed to create .gitignore"])
    | .ok _ =>
      let t3 := t2 ++ [.logSuccess "✓" ".gitignore created",
        .logMuted "  Excluded: credentials.json, *.key, aws-*.sh, .env, etc.",
        .logNewline, .logInfo "⏳" "Committing local configuration...",
        .gitInitialCommit "Local Claude Code configuration"]
      match g.initialCommit "Local Claude Code configuration" with
      | .error e => (.error e, t3 ++ [.logError "✗" "Failed to create local commit"])
      | .ok _ =>
        let t4 := t3 ++ [.logSuccess "✓" "Local files committed", .logNewline,
          .logInfo "⏳" "Adding remote repository...", .gitAddRemote "origin" remoteURL]
        match g.addRemote "origin" remoteURL with
        | .error e => (.error e, t4 ++ [.logError "✗" "Failed to add remote"])
        | .ok _ =>
          let t5 := t4 ++ [.logSuccess "✓" "Remote added", .logNewline, .gitFetch]
          match g.fetch with
          | .error e => (.error e, t5 ++ [.logError "✗" "Failed to fetch remote"])
          | .ok _ =>
            let t6 := t5 ++ [.logSuccess "✓" "Remote history fetched", .logNewline,
              .gitPullAllowUnrelatedHistories]
            match g.pullAllowUnrelatedHistories with
            | .error e =>
              (.error e, t6 ++ [.logError "✗" "Failed to merge histories", .logNewline,
                .logWarning "⚠️" "This can happen if there are conflicting files.",
                .logMuted "  Resolve conflicts manually in ~/.claude, then run claude-sync again.",
                .logNewline])
            | .ok _ =>
              let t7 := t6 ++ [.logSuccess "✓" "Histories merged successfully",
                .logNewline, .gitPushWithUpstream]
              match g.pushWithUpstream with
              | .error e => (.error e, t7 ++ [.logError "✗" "Failed to push"])
              | .ok _ =>
                (.ok (), t7 ++ [.logSuccess "✓" "Pushed to remote", .logNewline,
                  .logSuccess "🎉" "Setup complete!",
                  .logInfo "💡" "Histories merged successfully!",
                  .logMuted "  Your local and remote configurations have been combined.",
                  .logMuted "  Run \x27claude-sync\x27 anytime to keep them synchronized.",
                  .logNewline])

/-- Embeds Service.executeReplaceWithRemote: remove the local configuration
directory, then run the clone flow with the already-known remote URL. -/
def executeReplaceWithRemote (g : GitOps) (p : Prompter) (remoteURL : String) :
    Except GoErr Unit × List Event :=
  let t1 : List Event := [.logInfo "⏳" "Removing local configuration...", .gitRemoveClaudeDir]
  match g.removeClaudeDir with
  | .error e => (.error e, t1 ++ [.logError "✗" "Failed to remove local config"])
  | .ok _ =>
    let r := runCloneFlow g p remoteURL
    (r.1, t1 ++ [.logSuccess "✓" "Local config removed", .logNewline] ++ r.2)

/-- Embeds Service.handleRemoteWithCommits: the replace / merge / cancel
choice when the remote already has commits. -/
def handleRemoteWithCommits (g : GitOps) (p : Prompter) (remoteURL : String) :
    Except GoErr Unit × List Event :=
  let intro : List Event :=
    [.logWarning "⚠️" "Remote repository already has commits!",
     .logMuted "  Your local ~/.claude has different content than the remote.",
     .logNewline, .promptSelect "How would you like to proceed?"]
  match p.select "How would you like to proceed?" with
  | .error e => (.error e, intro ++ [.logError "✗" "Failed to read input"])
  | .ok choice =>
    if choice = "replace" then
      let r := executeReplaceWithRemote g p remoteURL
      (r.1, intro ++ r.2)
    else if choice = "merge" then
      let r := executeMergeHistories g remoteURL
      (r.1, intro ++ r.2)
    else if choice = "cancel" || choice = "" then
      (.ok (), intro ++ [.logInfo "ℹ️" "Setup cancelled", .logNewline])
    else
      (.ok (), intro)

/-- Embeds Service.handleRemoteState: probe the remote for history; a probe
error degrades to the fresh-init path with a warning. -/
def handleRemoteState (g : GitOps) (p : Prompter) (remoteURL : String) :
    Except GoErr Unit × List Event :=
  match g.remoteHasCommits remoteURL with
  | .error _ =>
    let r := executeFreshInit g remoteURL
    (r.1, [.gitRemoteHasCommits remoteURL,
      .logWarning "⚠️" "Could not check remote history, proceeding with fresh init"] ++ r.2)
  | .ok true =>
    let r := handleRemoteWithCommits g p remoteURL
    (r.1, .gitRemoteHasCommits remoteURL :: r.2)
  | .ok false =>
    let r := executeFreshInit g remoteURL
    (r.1, .gitRemoteHasCommits remoteURL :: r.2)

/-- Embeds Service.runInitFlow: confirm, collect and validate the remote URL,
then branch on the remote state. An empty URL aborts with a "setup cancelled"
failure. -/
def runInitFlow (g : GitOps) (p : Prompter) : Except GoErr Unit × List Event :=
  let intro : List Event :=
    [.logNewline, .logTitle "🎉 Git Sync Setup",
     .logInfo "📋" "Claude Code configuration detected!",
     .logMuted "  Let\x27s set up git sync to keep your config synchronized across machines",
     .logNewline, .promptConfirm "🤔 Would you like to set up git sync now?"]
  match p.confirm "🤔 Would you like to set up git sync now?" with
  | .error e => (.error e, intro ++ [.logError "✗" "Failed to read input"])
  | .ok false =>
    (.ok (), intro ++
      [.logInfo "ℹ️" "Setup cancelled - you can run claude-sync again when ready",
       .logNewline])
  | .ok true =>
    let urlIntro : List Event :=
      [.logNewline, .logInfo "📦" "Please create a private git repository first",
       .logMuted "  Examples:",
       .logMuted "    • GitHub: https://github.com/new",
       .logMuted "    • GitLab: https://gitlab.com/projects/new",
       .logMuted "    • Bitbucket: https://bitbucket.org/repo/create",
       .logNewline, .promptInput "🔗 Enter your git remote URL:"]
    match p.input "🔗 Enter your git remote URL:" with
    | .error e => (.error e, intro ++ urlIntro ++ [.logError "✗" "Failed to read input"])
    | .ok remoteURL =>
      if remoteURL = "" then
        (.error "setup cancelled",
         intro ++ urlIntro ++
           [.logError "✗" "No remote URL provided - setup cancelled", .logNewline])
      else
        match g.validateRemote remoteURL with
        | .error _ =>
          (.error "remote repository not accessible",
           intro ++ urlIntro ++ [.logNewline, .gitValidateRemote remoteURL,
            .logError "✗" "Remote repository not accessible", .logNewline,
            .logWarning "⚠️" "Please make sure:",
            .logMuted "  1. The repository exists and you have access",
            .logMuted "  2. You have SSH keys set up (for git@ URLs)",
            .logMuted "  3. The URL is correct", .logNewline,
            .logInfo "💡" "After creating the repo, run claude-sync again", .logNewline])
        | .ok _ =>
          let r := handleRemoteState g p remoteURL
          (r.1, intro ++ urlIntro ++ [.logNewline, .gitValidateRemote remoteURL,
            .logSuccess "✓" "Remote repository verified!", .logNewline] ++ r.2)

/-- Embeds Service.runFirstTimeSetup: the clone-or-fresh choice when the
configuration directory does not exist at all. -/
def runFirstTimeSetup (g : GitOps) (p : Prompter) : Except GoErr Unit × List Event :=
  let intro : List Event :=
    [.logNewline, .logTitle "🎉 First Time Setup",
     .logInfo "📋" "No Claude Code configuration found at ~/.claude",
     .logMuted "  Let\x27s set that up!", .logNewline,
     .promptSelect "What would you like to do?"]
  match p.select "What would you like to do?" with
  | .error e => (.error e, intro ++ [.logError "✗" "Failed to read input"])
  | .ok choice =>
    if choice = "" then
      (.ok (), intro ++
        [.logInfo "ℹ️" "Setup cancelled - you can run claude-sync again when ready",
         .logNewline])
    else if choice = "clone" then
      let r := runCloneFlow g p ""
      (r.1, intro ++ [.logNewline] ++ r.2)
    else
      let t1 := intro ++ [.logNewline,
        .logInfo "⏳" "Creating ~/.claude directory...", .gitCreateClaudeDir]
      match g.createClaudeDir with
      | .error e => (.error e, t1 ++ [.logError "✗" "Failed to create directory"])
      | .ok _ =>
        let r := runInitFlow g p
        (r.1, t1 ++ [.logSuccess "✓" "Directory created", .logNewline] ++ r.2)

/-! ## Configuration-directory content

An abstract view of what the configuration directory holds, used to state
the end-to-end effect of the replace flow. -/

/-- Abstract content of the configuration directory. -/
inductive DirContent
  | priorLocal
  | absent
  | cloned (url : String)
  deriving DecidableEq, Repr

/-- Modelled from the spec: the effect of the two content-replacing facade
calls on the configuration directory. RemoveClaudeDir (implementation not
under src/; the spec reads "remove local directory entirely") deletes the
directory; CloneRepo (git clone, src git package) fills it with the content
of the cloned remote. No other facade call replaces the directory content. -/
def applyEvent (d : DirContent) : Event → DirContent
  | .gitRemoveClaudeDir => .absent
  | .gitCloneRepo url => .cloned url
  | _ => d

/-- The directory content after a trace of events. -/
def runDirContent (d : DirContent) (tr : List Event) : DirContent :=
  tr.foldl applyEvent d

/-! ## Concrete collaborator behaviours used as witnesses -/

/-- A collaborator behaviour where every git call succeeds (empty change set,
no conflicts, remote empty). -/
def gOk : GitOps where
  getChangedFiles := .ok []
  commitChanges := fun _ => .ok ()
  generateAutoCommitMessage := "Auto-sync from host at 2025-01-01 00:00:00"
  pullWithRebase := .ok ()
  hasConflicts := .ok false
  abortRebase := .ok ()
  push := .ok ()
  getRecentCommits := fun _ => .ok []
  initRepo := .ok ()
  setupGitignore := .ok ()
  initialCommit := fun _ => .ok ()
  addRemote := fun _ _ => .ok ()
  fetch := .ok ()
  pullAllowUnrelatedHistories := .ok ()
  pushWithUpstream := .ok ()
  validateRemote := fun _ => .ok ()
  remoteHasCommits := fun _ => .ok false
  cloneRepo := fun _ => .ok ()
  createClaudeDir := .ok ()
  removeClaudeDir := .ok ()

/-- gOk with a failing pull and conflicted paths. -/
def gPullConflict : GitOps :=
  { gOk with pullWithRebase := .error "pull failed", hasConflicts := .ok true }

/-- gOk with a failing pull and no conflicted paths. -/
def gPullNoConflict : GitOps :=
  { gOk with pullWithRebase := .error "pull failed" }

/-- gOk with a failing unrelated-histories pull. -/
def gMergePullFail : GitOps :=
  { gOk with pullAllowUnrelatedHistories := .error "unrelated merge failed" }

/-- gOk with a failing upstream push. -/
def gPushUpFail : GitOps :=
  { gOk with pushWithUpstream := .error "push rejected" }

/-- gOk with a failing remote-history probe. -/
def gProbeFail : GitOps :=
  { gOk with remoteHasCommits := fun _ => .error "ls-remote failed" }

/-- A prompter that cancels every prompt (empty answers, declined confirm). -/
def pCancel : Prompter where
  confirm := fun _ => .ok false
  input := fun _ => .ok ""
  select := fun _ => .ok ""

/-- A prompter that confirms setup but gives an empty remote URL. -/
def pEmptyUrl : Prompter where
  confirm := fun _ => .ok true
  input := fun _ => .ok ""
  select := fun _ => .ok ""

/-! ## Claim theorems -/

/-- C7: hasUncommittedChanges reports (true, no error) exactly when the diff
probe exits with code 1, (false, no error) exactly when it exits 0, and an
error on every other failing outcome; a probe that exits 0, as the tracked-
file diff does on an untracked-only tree, therefore never reports true. -/
theorem c7_hasUncommittedChanges_exit_codes (r : RunOutcome) :
    (hasUncommittedChanges r = .ok true ↔ r = .exitCode 1) ∧
    (hasUncommittedChanges r = .ok false ↔ r = .exitZero) ∧
    (r ≠ .exitZero → r ≠ .exitCode 1 →
      hasUncommittedChanges r = .error "git diff-index failed") := by
  cases r with
  | exitZero => simp [hasUncommittedChanges]
  | exitCode c =>
    by_cases hc : c = 1 <;> simp [hasUncommittedChanges, hc]
  | startFailure => simp [hasUncommittedChanges]

/-- Witness for C7 at the concrete exit codes 1, 0 and 2. -/
theorem c7_hasUncommittedChanges_exit_codes_witness :
    hasUncommittedChanges (.exitCode 1) = .ok true ∧
    hasUncommittedChanges .exitZero = .ok false ∧
    hasUncommittedChanges (.exitCode 2) = .error "git diff-index failed" :=
  ⟨(c7_hasUncommittedChanges_exit_codes (.exitCode 1)).1.mpr rfl,
   (c7_hasUncommittedChanges_exit_codes .exitZero).2.1.mpr rfl,
   (c7_hasUncommittedChanges_exit_codes (.exitCode 2)).2.2
     (by decide) (by decide)⟩

/-- C9: with no configured upstream the ahead/behind probe fails and
getBranchInfo absorbs the failure, returning the trimmed branch name with
ahead = 0 and behind = 0 and no error; the returned name is nonempty whenever
the branch probe printed a nonempty name, as on a fresh repository with a
commit. -/
theorem c9_getBranchInfo_no_upstream (bout : String) (e : GoErr) :
    getBranchInfo (.ok bout) (.error e) = .ok (goTrim bout, 0, 0) ∧
    (goTrim bout ≠ "" → ∀ br ah bh,
      getBranchInfo (.ok bout) (.error e) = .ok (br, ah, bh) → br ≠ "") := by
  constructor
  · rfl
  · intro hne br ah bh hres
    have : (⟨goTrim bout, 0, 0⟩ : String × Int × Int) = ⟨br, ah, bh⟩ := by
      have h0 : getBranchInfo (.ok bout) (.error e) = .ok (goTrim bout, 0, 0) := rfl
      rw [h0] at hres
      exact Except.ok.inj hres
    have hbr : goTrim bout = br := congrArg Prod.fst this
    rw [← hbr]
    exact hne

/-- Witness for C9 at branch output "main" with a trailing newline. -/
theorem c9_getBranchInfo_no_upstream_witness :
    getBranchInfo (.ok "main\n") (.error "no upstream") = .ok ("main", 0, 0) ∧
    (goTrim "main\n" ≠ "" → ∀ br ah bh,
      getBranchInfo (.ok "main\n") (.error "no upstream") = .ok (br, ah, bh) →
      br ≠ "") :=
  c9_getBranchInfo_no_upstream "main\n" "no upstream"

/-- C10: the plugin enumeration never fails: a read failure (missing file) or
unmarshal failure (invalid JSON) yields the empty list, and a parsed
enabledPlugins map yields exactly the names mapped to true. -/
theorem c10_getEnabledPlugins_spec (r : SettingsRead) :
    ((r = .readError ∨ r = .unmarshalError) → getEnabledPlugins r = []) ∧
    (∀ m, r = .parsed m →
      ∀ name, name ∈ getEnabledPlugins r ↔ (name, true) ∈ m) := by
  constructor
  · rintro (h | h) <;> subst h <;> rfl
  · intro m hm name
    subst hm
    simp only [getEnabledPlugins, List.mem_map, List.mem_filter]
    constructor
    · rintro ⟨⟨a, b⟩, ⟨hmem, hb⟩, hname⟩
      simp only at hb hname
      subst hname
      cases b with
      | true => exact hmem
      | false => cases hb
    · intro hmem
      exact ⟨(name, true), ⟨hmem, rfl⟩, rfl⟩

/-- Witness for C10 on a concrete settings map and on a read failure. -/
theorem c10_getEnabledPlugins_spec_witness :
    getEnabledPlugins .readError = [] ∧
    ("a" ∈ getEnabledPlugins (.parsed [("a", true), ("b", false)]) ↔
      ("a", true) ∈ [("a", true), ("b", false)]) :=
  ⟨(c10_getEnabledPlugins_spec .readError).1 (Or.inl rfl),
   (c10_getEnabledPlugins_spec (.parsed [("a", true), ("b", false)])).2
     [("a", true), ("b", false)] rfl "a"⟩

/-- C6 counterexample: classification is not uniform across the push, pull
and clone failure paths. The same network-diagnostic output is classified as
a network failure by the push/pull classifier but falls through to generic in
the clone classifier, and the plain push used by the sync pipeline wraps an
SSH-authentication output generically without consulting the classifier at
all. -/
theorem c6_counterexample :
    classifyPush "could not resolve host: github.com" = .network ∧
    classifyClone "could not resolve host: github.com" = .generic ∧
    gitPushRun (.fail "Permission denied (publickey)") =
      .error ⟨.generic, "Permission denied (publickey)"⟩ ∧
    classifyPush "Permission denied (publickey)" = .sshAuth := by
  refine ⟨by decide, by decide, rfl, by decide⟩

/-- C6 amended: pull-with-rebase, push-with-upstream and clone failures are
classified by case-insensitive substring matching, but not uniformly: the
pull path defers to the push classifier after its own no-upstream check; the
clone path uses a separate classifier that has no network, https-auth or
no-upstream category; the plain push used by steady-state sync wraps its
failure generically without classification; and output matching no known
phrase falls through to generic with no remediation attached. -/
theorem c6_amended_classification (output : String) :
    ((∀ ph ∈ pushKnownPhrases, goContains (goToLower output) ph = false) →
      classifyPush output = .generic) ∧
    ((∀ ph ∈ cloneKnownPhrases, goContains (goToLower output) ph = false) →
      classifyClone output = .generic) ∧
    (classifyPull output = .noUpstream ∨ classifyPull output = classifyPush output) ∧
    (classifyClone output ≠ .network ∧ classifyClone output ≠ .httpsAuth ∧
      classifyClone output ≠ .noUpstream) ∧
    (classifyPush output = .generic → pushRemediation output = "") ∧
    (classifyClone output = .generic → cloneRemediation output = "") ∧
    (∀ raw, gitPushRun (.fail raw) = .error ⟨.generic, raw⟩) := by
  refine ⟨?_, ?_, ?_, ?_, ?_, ?_, fun raw => rfl⟩
  · intro h
    have h1 := h "permission denied" (by decide)
    have h2 := h "publickey" (by decide)
    have h3 := h "authentication failed" (by decide)
    have h4 := h "403" (by decide)
    have h5 := h "could not resolve host" (by decide)
    have h6 := h "connection timed out" (by decide)
    have h7 := h "network" (by decide)
    have h8 := h "repository not found" (by decide)
    have h9 := h "does not appear to be a git repository" (by decide)
    simp [classifyPush, h1, h2, h3, h4, h5, h6, h7, h8, h9]
  · intro h
    have h1 := h "permission denied" (by decide)
    have h2 := h "publickey" (by decide)
    have h3 := h "repository not found" (by decide)
    have h4 := h "does not appear to be a git repository" (by decide)
    have h5 := h "not found" (by decide)
    have h6 := h "empty repository" (by decide)
    have h7 := h "warning: you appear to have cloned an empty repository" (by decide)
    simp [classifyClone, h1, h2, h3, h4, h5, h6, h7]
  · by_cases hc :
      (goContains (goToLower output) "no tracking information" ||
        goContains (goToLower output) "there is no tracking information") = true
    · left
      simp [classifyPull, hc]
    · right
      simp only [classifyPull]
      rw [if_neg]
      simpa using hc
  · simp only [classifyClone]
    refine ⟨?_, ?_, ?_⟩ <;> split <;> simp_all <;> split <;> simp_all <;> split <;> simp_all
  · intro h
    simp [pushRemediation, h]
  · intro h
    simp [cloneRemediation, h]

/-- Witness for C6 amended at output "zzz", which matches no known phrase. -/
theorem c6_amended_classification_witness :
    classifyPush "zzz" = .generic ∧ classifyClone "zzz" = .generic ∧
    pushRemediation "zzz" = "" ∧ cloneRemediation "zzz" = "" := by
  have h := c6_amended_classification "zzz"
  refine ⟨h.1 (by decide), h.2.1 (by decide), ?_, ?_⟩
  · exact h.2.2.2.2.1 (h.1 (by decide))
  · exact h.2.2.2.2.2.1 (h.2.1 (by decide))

/-- The commit step never touches rebase state: its trace contains no
AbortRebase call, whatever the collaborators do. -/
theorem abortRebase_not_in_commitTrace (g : GitOps) :
    Event.gitAbortRebase ∉ (commitLocalChanges g).2 := by
  unfold commitLocalChanges
  cases hf : g.getChangedFiles with
  | error e => simp
  | ok files =>
    by_cases hlen : files.length = 0
    · simp [hlen]
    · cases hc : g.commitChanges g.generateAutoCommitMessage <;>
        simp [hlen, hc, List.mem_append, List.mem_map]

/-- C1: in an established-repository sync run that reaches the pull step, a
pull failure with conflicted paths prints the manual-resolution steps,
attempts a best-effort rebase abort, and terminates the run with the merge-
conflicts failure; a pull failure whose conflict check reports no conflicts
or itself fails returns the original pull error as-is and never calls the
rebase abort. -/
theorem c1_pull_failure_conflict_handling (g : GitOps) (e : GoErr)
    (hreach : (commitLocalChanges g).1 = .ok ())
    (hpull : g.pullWithRebase = .error e) :
    (g.hasConflicts = .ok true →
      (syncEstablished g).1 = .error "merge conflicts detected - sync aborted" ∧
      Event.gitAbortRebase ∈ (syncEstablished g).2 ∧
      Event.logMuted "  Please resolve conflicts manually and try again:" ∈
        (syncEstablished g).2) ∧
    (g.hasConflicts ≠ .ok true →
      (syncEstablished g).1 = .error e ∧
      Event.gitAbortRebase ∉ (syncEstablished g).2) := by
  constructor
  · intro hc
    cases hab : g.abortRebase with
    | error eab =>
      refine ⟨?_, ?_, ?_⟩ <;>
        simp [syncEstablished, pullWithRebaseAndHandleConflicts, handlePullError,
          hreach, hpull, hc, hab]
    | ok u =>
      refine ⟨?_, ?_, ?_⟩ <;>
        simp [syncEstablished, pullWithRebaseAndHandleConflicts, handlePullError,
          hreach, hpull, hc, hab]
  · intro hc
    have hnc := abortRebase_not_in_commitTrace g
    cases hcf : g.hasConflicts with
    | error ec =>
      constructor
      · simp [syncEstablished, pullWithRebaseAndHandleConflicts, handlePullError,
          hreach, hpull, hcf]
      · simp only [syncEstablished, pullWithRebaseAndHandleConflicts,
          handlePullError, hreach, hpull, hcf]
        simp [List.mem_append, hnc]
    | ok b =>
      cases b with
      | true => exact absurd hcf hc
      | false =>
        constructor
        · simp [syncEstablished, pullWithRebaseAndHandleConflicts, handlePullError,
            hreach, hpull, hcf]
        · simp only [syncEstablished, pullWithRebaseAndHandleConflicts,
            handlePullError, hreach, hpull, hcf]
          simp [List.mem_append, hnc]

/-- Witness for C1 at concrete collaborators: a failing pull with conflicts,
and a failing pull without conflicts. -/
theorem c1_pull_failure_conflict_handling_witness :
    (syncEstablished gPullConflict).1 =
      .error "merge conflicts detected - sync aborted" ∧
    Event.gitAbortRebase ∈ (syncEstablished gPullConflict).2 ∧
    (syncEstablished gPullNoConflict).1 = .error "pull failed" ∧
    Event.gitAbortRebase ∉ (syncEstablished gPullNoConflict).2 := by
  have h1 := (c1_pull_failure_conflict_handling gPullConflict "pull failed"
    rfl rfl).1 rfl
  have h2 := (c1_pull_failure_conflict_handling gPullNoConflict "pull failed"
    rfl rfl).2 (by simp [gPullNoConflict, gOk])
  exact ⟨h1.1, h1.2.1, h2.1, h2.2⟩

/-- C2 counterexample: in a merge flow where every git call succeeds, the
local content is committed with the message "Local Claude Code
configuration", and no commit with the message "Local configuration" ever
happens. -/
theorem c2_counterexample :
    Event.gitInitialCommit "Local Claude Code configuration" ∈
      (executeMergeHistories gOk "git@github.com:u/r.git").2 ∧
    Event.gitInitialCommit "Local configuration" ∉
      (executeMergeHistories gOk "git@github.com:u/r.git").2 := by
  constructor
  · simp [executeMergeHistories, gOk]
  · simp [executeMergeHistories, gOk]

/-- C2 amended: MergeFlow performs exactly, in order: init, write ignore
file, commit the existing local content with the message "Local Claude Code
configuration" (not "Local configuration"), add remote, fetch, pull allowing
unrelated histories, push with upstream; a failing unrelated-histories pull
terminates the flow with that error, after which no further git call (in
particular no removal or rollback) is made. -/
theorem c2_merge_flow_order (g : GitOps) (url : String) (e : GoErr)
    (h1 : g.initRepo = .ok ()) (h2 : g.setupGitignore = .ok ())
    (h3 : g.initialCommit "Local Claude Code configuration" = .ok ())
    (h4 : g.addRemote "origin" url = .ok ()) (h5 : g.fetch = .ok ()) :
    (g.pullAllowUnrelatedHistories = .error e →
      (executeMergeHistories g url).1 = .error e ∧
      (executeMergeHistories g url).2.filter Event.isGitCall =
        [.gitInitRepo, .gitSetupGitignore,
         .gitInitialCommit "Local Claude Code configuration",
         .gitAddRemote "origin" url, .gitFetch,
         .gitPullAllowUnrelatedHistories] ∧
      Event.gitRemoveClaudeDir ∉ (executeMergeHistories g url).2) ∧
    (g.pullAllowUnrelatedHistories = .ok () → g.pushWithUpstream = .ok () →
      (executeMergeHistories g url).1 = .ok () ∧
      (executeMergeHistories g url).2.filter Event.isGitCall =
        [.gitInitRepo, .gitSetupGitignore,
         .gitInitialCommit "Local Claude Code configuration",
         .gitAddRemote "origin" url, .gitFetch,
         .gitPullAllowUnrelatedHistories, .gitPushWithUpstream]) := by
  constructor
  · intro hp
    refine ⟨?_, ?_, ?_⟩ <;>
      simp [executeMergeHistories, h1, h2, h3, h4, h5, hp, Event.isGitCall]
  · intro hp hpush
    constructor <;>
      simp [executeMergeHistories, h1, h2, h3, h4, h5, hp, hpush, Event.isGitCall]

/-- Witness for C2 amended: a failing unrelated-histories pull, and a fully
successful merge flow. -/
theorem c2_merge_flow_order_witness :
    (executeMergeHistories gMergePullFail "u").1 = .error "unrelated merge failed" ∧
    (executeMergeHistories gMergePullFail "u").2.filter Event.isGitCall =
      [.gitInitRepo, .gitSetupGitignore,
       .gitInitialCommit "Local Claude Code configuration",
       .gitAddRemote "origin" "u", .gitFetch, .gitPullAllowUnrelatedHistories] ∧
    (executeMergeHistories gOk "u").1 = .ok () := by
  have h1 := (c2_merge_flow_order gMergePullFail "u" "unrelated merge failed"
    rfl rfl rfl rfl rfl).1 rfl
  have h2 := (c2_merge_flow_order gOk "u" "unused"
    rfl rfl rfl rfl rfl).2 rfl rfl
  exact ⟨h1.1, h1.2.1, h2.1⟩

/-- C4: when init, ignore-file creation, initial commit and add-remote all
succeed but the upstream push fails, FreshInit returns the push error, its
git trace is exactly those five calls (so nothing is removed or rolled
back), and the manual-recovery steps are printed. -/
theorem c4_fresh_init_push_failure (g : GitOps) (url : String) (e : GoErr)
    (h1 : g.initRepo = .ok ()) (h2 : g.setupGitignore = .ok ())
    (h3 : g.initialCommit "Initial Claude Code configuration" = .ok ())
    (h4 : g.addRemote "origin" url = .ok ())
    (h5 : g.pushWithUpstream = .error e) :
    (executeFreshInit g url).1 = .error e ∧
    (executeFreshInit g url).2.filter Event.isGitCall =
      [.gitInitRepo, .gitSetupGitignore,
       .gitInitialCommit "Initial Claude Code configuration",
       .gitAddRemote "origin" url, .gitPushWithUpstream] ∧
    Event.gitRemoveClaudeDir ∉ (executeFreshInit g url).2 ∧
    Event.logWarning "⚠️" "Git setup complete, but push failed" ∈
      (executeFreshInit g url).2 ∧
    Event.logMuted "  2. git push -u origin main" ∈ (executeFreshInit g url).2 := by
  refine ⟨?_, ?_, ?_, ?_, ?_⟩ <;>
    simp [executeFreshInit, h1, h2, h3, h4, h5, Event.isGitCall]

/-- Witness for C4 at a concrete collaborator with a rejected upstream push. -/
theorem c4_fresh_init_push_failure_witness :
    (executeFreshInit gPushUpFail "u").1 = .error "push rejected" ∧
    Event.gitRemoveClaudeDir ∉ (executeFreshInit gPushUpFail "u").2 ∧
    Event.logMuted "  2. git push -u origin main" ∈
      (executeFreshInit gPushUpFail "u").2 := by
  have h := c4_fresh_init_push_failure gPushUpFail "u" "push rejected"
    rfl rfl rfl rfl rfl
  exact ⟨h.1, h.2.2.1, h.2.2.2.2⟩

/-- C3: a failing remote-history probe is absorbed: RemoteStateCheck logs a
warning and proceeds to FreshInit exactly as when the probe reports no
history (same result, same continuation trace); a successful probe branches
to the with-commits choice on true and to FreshInit on false. -/
theorem c3_remote_state_probe (g : GitOps) (p : Prompter) (url : String) :
    ((∃ e, g.remoteHasCommits url = .error e) →
      (handleRemoteState g p url).1 = (executeFreshInit g url).1 ∧
      (handleRemoteState g p url).2 =
        [Event.gitRemoteHasCommits url,
         Event.logWarning "⚠️"
           "Could not check remote history, proceeding with fresh init"] ++
          (executeFreshInit g url).2) ∧
    (g.remoteHasCommits url = .ok true →
      (handleRemoteState g p url).1 = (handleRemoteWithCommits g p url).1 ∧
      (handleRemoteState g p url).2 =
        Event.gitRemoteHasCommits url :: (handleRemoteWithCommits g p url).2) ∧
    (g.remoteHasCommits url = .ok false →
      (handleRemoteState g p url).1 = (executeFreshInit g url).1 ∧
      (handleRemoteState g p url).2 =
        Event.gitRemoteHasCommits url :: (executeFreshInit g url).2) := by
  refine ⟨?_, ?_, ?_⟩
  · rintro ⟨e, he⟩
    constructor <;> simp [handleRemoteState, he]
  · intro h
    constructor <;> simp [handleRemoteState, h]
  · intro h
    constructor <;> simp [handleRemoteState, h]

/-- Witness for C3: a concrete failing probe degrades to FreshInit. -/
theorem c3_remote_state_probe_witness :
    (handleRemoteState gProbeFail pCancel "u").1 =
      (executeFreshInit gProbeFail "u").1 ∧
    (handleRemoteState gOk pCancel "u").1 = (executeFreshInit gOk "u").1 := by
  have h1 := (c3_remote_state_probe gProbeFail pCancel "u").1
    ⟨"ls-remote failed", rfl⟩
  have h2 := (c3_remote_state_probe gOk pCancel "u").2.2 rfl
  exact ⟨h1.1, h2.1⟩

/-- C5: with the remote URL already known (nonempty), the replace choice
removes the local configuration directory and then clones with that URL: its
git trace is exactly remove-then-clone, no URL prompt is shown, and whatever
the directory held before, afterwards it holds exactly the cloned remote
content. -/
theorem c5_replace_with_remote (g : GitOps) (p : Prompter) (url : String)
    (hurl : url ≠ "")
    (hrm : g.removeClaudeDir = .ok ()) (hclone : g.cloneRepo url = .ok ()) :
    (executeReplaceWithRemote g p url).1 = .ok () ∧
    (executeReplaceWithRemote g p url).2.filter Event.isGitCall =
      [.gitRemoveClaudeDir, .gitCloneRepo url] ∧
    (∀ q, Event.promptInput q ∉ (executeReplaceWithRemote g p url).2) ∧
    (∀ d, runDirContent d (executeReplaceWithRemote g p url).2 = .cloned url) := by
  refine ⟨?_, ?_, ?_, ?_⟩ <;>
    simp [executeReplaceWithRemote, runCloneFlow, hurl, hrm, hclone,
      Event.isGitCall, runDirContent, applyEvent]

/-- Witness for C5 at a concrete collaborator and URL, starting from prior
local content. -/
theorem c5_replace_with_remote_witness :
    (executeReplaceWithRemote gOk pCancel "git@github.com:u/r.git").1 = .ok () ∧
    (∀ q, Event.promptInput q ∉
      (executeReplaceWithRemote gOk pCancel "git@github.com:u/r.git").2) ∧
    runDirContent .priorLocal
      (executeReplaceWithRemote gOk pCancel "git@github.com:u/r.git").2 =
      .cloned "git@github.com:u/r.git" := by
  have h := c5_replace_with_remote gOk pCancel "git@github.com:u/r.git"
    (by simp) rfl rfl
  exact ⟨h.1, h.2.2.1, h.2.2.2 .priorLocal⟩

/-- C8 counterexample: cancellation is not always a clean non-error return.
With the confirm prompt accepted, an empty answer to the init-flow URL prompt
makes setup terminate with a "setup cancelled" failure (logged as an error),
not with success. -/
theorem c8_counterexample :
    (runInitFlow gOk pEmptyUrl).1 = .error "setup cancelled" ∧
    (runInitFlow gOk pEmptyUrl).1 ≠ .ok () ∧
    Event.logError "✗" "No remote URL provided - setup cancelled" ∈
      (runInitFlow gOk pEmptyUrl).2 := by
  refine ⟨rfl, ?_, ?_⟩ <;> simp [runInitFlow, pEmptyUrl, gOk]

/-- C8 amended: an empty answer to any prompt is always interpreted as
cancellation and no git operation is performed. At FirstTimeChoice, at
ConflictChoice and at the clone-flow URL prompt this is a clean success
return with an informational message; at the init-flow URL prompt, however,
cancellation returns a "setup cancelled" error rather than success. -/
theorem c8_empty_answer_cancellation (g : GitOps) (p : Prompter) (url : String) :
    (p.select "What would you like to do?" = .ok "" →
      (runFirstTimeSetup g p).1 = .ok () ∧
      (runFirstTimeSetup g p).2.filter Event.isGitCall = [] ∧
      Event.logInfo "ℹ️"
          "Setup cancelled - you can run claude-sync again when ready" ∈
        (runFirstTimeSetup g p).2) ∧
    (p.select "How would you like to proceed?" = .ok "" →
      (handleRemoteWithCommits g p url).1 = .ok () ∧
      (handleRemoteWithCommits g p url).2.filter Event.isGitCall = [] ∧
      Event.logInfo "ℹ️" "Setup cancelled" ∈ (handleRemoteWithCommits g p url).2) ∧
    (p.input "🔗 Enter your git remote URL:" = .ok "" →
      (runCloneFlow g p "").1 = .ok () ∧
      (runCloneFlow g p "").2.filter Event.isGitCall = []) ∧
    (p.confirm "🤔 Would you like to set up git sync now?" = .ok false →
      (runInitFlow g p).1 = .ok () ∧
      (runInitFlow g p).2.filter Event.isGitCall = []) ∧
    (p.confirm "🤔 Would you like to set up git sync now?" = .ok true →
      p.input "🔗 Enter your git remote URL:" = .ok "" →
      (runInitFlow g p).1 = .error "setup cancelled" ∧
      (runInitFlow g p).2.filter Event.isGitCall = []) := by
  refine ⟨?_, ?_, ?_, ?_, ?_⟩
  · intro h
    refine ⟨?_, ?_, ?_⟩ <;> simp [runFirstTimeSetup, h, Event.isGitCall]
  · intro h
    refine ⟨?_, ?_, ?_⟩ <;> simp [handleRemoteWithCommits, h, Event.isGitCall]
  · intro h
    constructor <;> simp [runCloneFlow, h, Event.isGitCall]
  · intro h
    constructor <;> simp [runInitFlow, h, Event.isGitCall]
  · intro h hi
    constructor <;> simp [runInitFlow, h, hi, Event.isGitCall]

/-- Witness for C8 amended at concrete cancelling prompters. -/
theorem c8_empty_answer_cancellation_witness :
    (runFirstTimeSetup gOk pCancel).1 = .ok () ∧
    (handleRemoteWithCommits gOk pCancel "u").1 = .ok () ∧
    (runCloneFlow gOk pCancel "").1 = .ok () ∧
    (runInitFlow gOk pCancel).1 = .ok () ∧
    (runInitFlow gOk pEmptyUrl).1 = .error "setup cancelled" := by
  have h := c8_empty_answer_cancellation gOk pCancel "u"
  have h2 := c8_empty_answer_cancellation gOk pEmptyUrl "u"
  exact ⟨(h.1 rfl).1, (h.2.1 rfl).1, (h.2.2.1 rfl).1, (h.2.2.2.1 rfl).1,
    (h2.2.2.2.2 rfl rfl).1⟩

end ClaudeSync
